import Mathlib

/-!
Verification of the command-reference content model of the NUTS documentation
website (wellcode-ai/nuts).

The repository authors its command catalog as static content in three places:
the website README (Complete Command Reference tables), the project README
(the same tables plus a Command Aliases list), and the README page component
(src/website/src/app/readme/page.tsx).  The catalog data below is transcribed
row by row from those sources.  The catalog operations (listCommands,
resolveAlias, describeMonitoring) have no implementation in the repository;
they are modelled from the specification and evaluated over the authored
content.
-/

namespace Nuts

/-- Command categories, from the data model: Core, Flow, Config. -/
inductive Category where
  | Core
  | Flow
  | Config
deriving DecidableEq, Repr

/-- One documented CLI command.  Fields follow the data model: name (the
command identifier such as "call" or "flow new"), usage (the syntax template
column), description, sample (the example column), category (none for alias
entries, which the sources author with no table row), aliasOf (the target
name for alias entries). -/
structure CommandEntry where
  name : String
  usage : String
  description : String
  sample : String
  category : Option Category
  aliasOf : Option String
deriving DecidableEq, Repr

/-- A table row: a non-alias entry with the given category. -/
def row (name usage description sample : String) (cat : Category) : CommandEntry :=
  ⟨name, usage, description, sample, some cat, none⟩

/-- An alias entry: a short name mapped to a target command name. -/
def aliasRow (name target : String) : CommandEntry :=
  ⟨name, "", "", "", none, some target⟩

/-- The `call` row of the Core Commands tables (named so theorems can cite it). -/
def callRow : CommandEntry :=
  row "call" "call [OPTIONS] [METHOD] URL [BODY]" "Advanced HTTP client"
    "call GET https://api.example.com/users" Category.Core

/-- Core Commands table of the project README (Complete Command Reference). -/
def projectCoreCommands : List CommandEntry :=
  [ callRow
  , row "ask" "ask \"description\"" "Natural language to API call"
      "ask \"Create a user with test data\"" Category.Core
  , row "perf" "perf [METHOD] URL [OPTIONS]" "Performance testing"
      "perf GET https://api.example.com --users 50" Category.Core
  , row "security" "security URL [OPTIONS]" "AI security scanning"
      "security https://api.example.com --deep" Category.Core
  , row "monitor" "monitor URL [--smart]" "Health monitoring"
      "monitor https://api.example.com --smart" Category.Core
  , row "discover" "discover BASE_URL" "Auto-discover endpoints"
      "discover https://api.example.com" Category.Core
  , row "test" "test \"description\"" "AI test generation"
      "test \"Check user registration works\"" Category.Core
  , row "generate" "generate TYPE [count]" "Generate test data"
      "generate users 10" Category.Core
  , row "predict" "predict BASE_URL" "AI health prediction"
      "predict https://api.example.com" Category.Core
  , row "explain" "explain" "Explain last response"
      "explain" Category.Core
  , row "fix" "fix URL" "Auto-fix API issues"
      "fix https://api.example.com/broken" Category.Core
  , row "config" "config [api-key|show]" "Configuration"
      "config api-key" Category.Core ]

/-- Flow Management table of the project README. -/
def projectFlowCommands : List CommandEntry :=
  [ row "flow new" "flow new NAME" "Create new flow" "flow new myapi" Category.Flow
  , row "flow add" "flow add NAME METHOD PATH" "Add endpoint" "flow add myapi GET /users" Category.Flow
  , row "flow run" "flow run NAME ENDPOINT" "Execute endpoint" "flow run myapi /users" Category.Flow
  , row "flow list" "flow list" "List flows" "flow list" Category.Flow
  , row "flow docs" "flow docs NAME" "Generate docs" "flow docs myapi" Category.Flow
  , row "flow mock" "flow mock NAME [PORT]" "Start mock server" "flow mock myapi 8080" Category.Flow
  , row "flow story" "flow story NAME" "AI-guided workflow" "flow story myapi" Category.Flow ]

/-- Command Aliases list of the project README: c, p, s, h, q. -/
def projectAliases : List CommandEntry :=
  [ aliasRow "c" "call"
  , aliasRow "p" "perf"
  , aliasRow "s" "flow story"
  , aliasRow "h" "help"
  , aliasRow "q" "quit" ]

/-- Core Commands table of the website README (a second authored copy). -/
def websiteCoreCommands : List CommandEntry :=
  [ row "call" "call [OPTIONS] [METHOD] URL [BODY]" "Advanced HTTP client"
      "call GET https://api.example.com/users" Category.Core
  , row "ask" "ask \"description\"" "Natural language to API call"
      "ask \"Create a user with test data\"" Category.Core
  , row "perf" "perf [METHOD] URL [OPTIONS]" "Performance testing"
      "perf GET https://api.example.com --users 50" Category.Core
  , row "security" "security URL [OPTIONS]" "AI security scanning"
      "security https://api.example.com --deep" Category.Core
  , row "monitor" "monitor URL [--smart]" "Health monitoring"
      "monitor https://api.example.com --smart" Category.Core
  , row "discover" "discover BASE_URL" "Auto-discover endpoints"
      "discover https://api.example.com" Category.Core
  , row "test" "test \"description\"" "AI test generation"
      "test \"Check user registration works\"" Category.Core
  , row "generate" "generate TYPE [count]" "Generate test data"
      "generate users 10" Category.Core
  , row "predict" "predict BASE_URL" "AI health prediction"
      "predict https://api.example.com" Category.Core
  , row "explain" "explain" "Explain last response"
      "explain" Category.Core
  , row "fix" "fix URL" "Auto-fix API issues"
      "fix https://api.example.com/broken" Category.Core
  , row "config" "config [api-key|show]" "Configuration"
      "config api-key" Category.Core ]

/-- Flow Management table of the website README (a second authored copy). -/
def websiteFlowCommands : List CommandEntry :=
  [ row "flow new" "flow new NAME" "Create new flow" "flow new myapi" Category.Flow
  , row "flow add" "flow add NAME METHOD PATH" "Add endpoint" "flow add myapi GET /users" Category.Flow
  , row "flow run" "flow run NAME ENDPOINT" "Execute endpoint" "flow run myapi /users" Category.Flow
  , row "flow list" "flow list" "List flows" "flow list" Category.Flow
  , row "flow docs" "flow docs NAME" "Generate docs" "flow docs myapi" Category.Flow
  , row "flow mock" "flow mock NAME [PORT]" "Start mock server" "flow mock myapi 8080" Category.Flow
  , row "flow story" "flow story NAME" "AI-guided workflow" "flow story myapi" Category.Flow ]

/-- The catalog: the project README reference in authored order, Core rows,
then Flow rows, then the alias list. -/
def catalog : List CommandEntry :=
  projectCoreCommands ++ projectFlowCommands ++ projectAliases

/-- The flow-management commands demonstrated in the Flow Management code
block of the README page, one element per `nuts flow ...` line, in page
order (each line `nuts flow X ARGS` contributes the command name `flow X`). -/
def readmePageFlowCommandNames : List String :=
  [ "flow new", "flow add", "flow add", "flow run", "flow list", "flow docs"
  , "flow mock", "flow mock", "flow configure_mock_data", "flow story", "flow s" ]

/-- Linear name lookup over a catalog. -/
def findEntry (cat : List CommandEntry) (n : String) : Option CommandEntry :=
  cat.find? (fun e => decide (e.name = n))

/-- Modelled from the spec: `listCommands(category?)` returns all entries,
optionally filtered by category, in authored order.  The repository contains
no catalog module, only the authored content above. -/
def listCommands (cat : List CommandEntry) : Option Category → List CommandEntry
  | none => cat
  | some c => cat.filter (fun e => decide (e.category = some c))

/-- Modelled from the spec: `resolveAlias(name)` fails if the name is absent,
otherwise follows `aliasOf` at most one hop; a non-alias entry is returned
as is, an alias resolves to the lookup of its target name.  The repository
contains no such function. -/
def resolveAlias (cat : List CommandEntry) (n : String) : Option CommandEntry :=
  match findEntry cat n with
  | none => none
  | some e =>
    match e.aliasOf with
    | none => some e
    | some t => findEntry cat t

/-- The fixed monitoring timing contract. -/
structure MonitoringProfile where
  baseIntervalSeconds : Nat
  aiAnalysisEveryNChecks : Option Nat
deriving DecidableEq, Repr

/-- Modelled from the spec: `describeMonitoring(mode)` returns the fixed
profile for Basic or Smart and fails otherwise.  The numbers 30 and 3 are
the Monitor Command Details of the website README: health checks every 30
seconds, and in smart mode AI analysis every 3rd check (every 90 seconds). -/
def describeMonitoring (mode : String) : Option MonitoringProfile :=
  if mode = "Basic" then some ⟨30, none⟩
  else if mode = "Smart" then some ⟨30, some 3⟩
  else none

/-- Modelled from the spec: a state-passing reading of `listCommands` — each
call returns its result together with the catalog it leaves behind, which is
the input catalog unchanged (the catalog is immutable after authoring). -/
def listCommandsSt (cat : List CommandEntry) (q : Option Category) :
    List CommandEntry × List CommandEntry :=
  (listCommands cat q, cat)

/-- Does the alias target of an entry name an existing entry of the catalog? -/
def aliasTargetPresent (cat : List CommandEntry) (e : CommandEntry) : Bool :=
  match e.aliasOf with
  | none => false
  | some t => (findEntry cat t).isSome

/-- Does `resolveAlias` on this name yield a non-alias entry? -/
def resolvesToNonAlias (cat : List CommandEntry) (n : String) : Bool :=
  match resolveAlias cat n with
  | none => false
  | some r => r.aliasOf.isNone

/-- No two entries of the list share a name within a category. -/
def noDupNamesWithinCategory : List CommandEntry → Bool
  | [] => true
  | e :: rest =>
    rest.all (fun f => !(decide (f.category = e.category) && decide (f.name = e.name)))
      && noDupNamesWithinCategory rest

/-- Authored priority of an entry: Core before Flow before Config, alias
entries (no category) last. -/
def catRank (e : CommandEntry) : Nat :=
  match e.category with
  | some Category.Core => 0
  | some Category.Flow => 1
  | some Category.Config => 2
  | none => 3

/-- The list is sorted by authored priority. -/
def rankSorted : List CommandEntry → Bool
  | [] => true
  | [_] => true
  | a :: b :: rest => decide (catRank a ≤ catRank b) && rankSorted (b :: rest)

/-- Does the example of a row start with the row's own command name? -/
def sampleMatchesName (e : CommandEntry) : Bool :=
  e.name.toList.isPrefixOf e.sample.toList

/-- Markup tree: an element with tag name, attribute list and children, or a
text node.  This is the shape of the JSX the README page component returns. -/
inductive Html where
  | el (tag : String) (attrs : List (String × String)) (children : List Html)
  | text (s : String)
deriving Repr

/-- A feature card of the README page: title, description, one code block. -/
def featureCard (title description code : String) : Html :=
  .el "div" [("className", "feature-card")]
    [ .el "h3" [("className", "feature-title")] [.text title]
    , .el "p" [("className", "feature-description")] [.text description]
    , .el "div" [("className", "code-block")]
        [.el "pre" [("className", "code-content")] [.text code]] ]

/-- A command-reference block of the README page: feature title, code header,
one code block. -/
def referenceBlock (title header code : String) : Html :=
  .el "div" [("className", "mb-8")]
    [ .el "h3" [("className", "feature-title")] [.text title]
    , .el "div" [("className", "code-block")]
        [ .el "div" [("className", "code-header")] [.text header]
        , .el "pre" [("className", "code-content")] [.text code] ] ]

/-- A love-grid item of the README page. -/
def loveItem (emoji title description : String) : Html :=
  .el "div" [("className", "love-item")]
    [ .el "span" [("className", "love-emoji")] [.text emoji]
    , .el "h3" [] [.text title]
    , .el "p" [] [.text description] ]

/-- Embedding of the `ReadmePage` component
(src/website/src/app/readme/page.tsx).  The component takes no props, uses no
hooks and reads no external state, so it is modelled as a function from Unit
to the markup it returns; every dynamic expression in the JSX is a constant
string literal.  Literal braces and apostrophes of the rendered CLI snippets
are written with \x escapes. -/
def ReadmePage : Unit → Html := fun _ =>
  .el "div" [("className", "flash-bg min-h-screen px-4 py-8")]
    [ .el "div" [("className", "max-w-4xl mx-auto")]
      [ .el "div" [("className", "text-center mb-12")]
        [ .el "h1" [("className", "nuts-logo mb-4")] [.text "NUTS"]
        , .el "p" [("className", "subtitle mb-8")]
            [.text "AI-Powered CURL Killer & API Testing Revolution"]
        , .el "div" [("className", "flex justify-center gap-4 mb-8")]
          [ .el "Link" [("href", "/"), ("className", "cyberpunk-button")] [.text "← Home"]
          , .el "a" [("href", "https://github.com/wellcode-ai/nuts"), ("className", "cyberpunk-button")]
              [.text "GitHub"] ] ]
      , .el "div" [("className", "readme-content")]
        [ .el "section" [("className", "mb-12")]
          [ .el "h2" [("className", "section-title")] [.text "🚀 Installation"]
          , .el "div" [("className", "code-block")]
            [ .el "div" [("className", "code-header")] [.text "Terminal"]
            , .el "pre" [("className", "code-content")]
                [.text "# Install from GitHub\ncargo install --git https://github.com/wellcode-ai/nuts\n\n# Verify installation  \nnuts --version\n\n# Configure AI features\nnuts config api-key"] ] ]
        , .el "section" [("className", "mb-12")]
          [ .el "h2" [("className", "section-title")] [.text "🤖 AI Superpowers (CURL Killer!)"]
          , .el "div" [("className", "feature-grid")]
            [ featureCard "💬 Natural Language API Calls"
                "Stop memorizing curl syntax! Just tell NUTS what you want in plain English."
                "# Instead of complex curl commands:\nnuts ask \"Create a user with email john@example.com\"\nnuts ask \"Get all products from the API\"\nnuts ask \"Test if the login endpoint works\""
            , featureCard "🎲 AI Test Data Generation"
                "Generate unlimited realistic test data with AI. No more manual JSON crafting!"
                "# Generate realistic test data\nnuts generate users 50\nnuts generate products 25  \nnuts generate orders 10\n\n# Automatically creates diverse, realistic data"
            , featureCard "📊 Smart Monitoring"
                "AI monitors your APIs and predicts issues before they happen. Health checks every 30 seconds, AI analysis every 3rd check."
                "# Basic monitoring (30-second intervals)\nnuts monitor https://api.myapp.com\n\n# Smart monitoring with AI insights (every 90 seconds)\nnuts monitor https://api.myapp.com --smart\n\n# AI analyzes patterns, trends, and predictions"
            , featureCard "🧠 AI Response Explanation"
                "Confused by API responses? Let AI explain them in human terms."
                "# Make any API call\nnuts call GET https://api.example.com/users\n\n# Then get AI explanation\nnuts explain"
            , featureCard "🔧 Auto-Fix Broken APIs"
                "AI diagnoses API problems and suggests specific fixes automatically."
                "# AI diagnoses and fixes APIs\nnuts fix https://api.broken.com\n\n# Get specific actionable recommendations" ] ]
        , .el "section" [("className", "mb-12")]
          [ .el "h2" [("className", "section-title")] [.text "📚 Complete Command Reference"]
          , referenceBlock "🔧 Core Commands" "Essential API Testing Commands"
              "# Advanced HTTP Client (CURL killer)\nnuts call GET https://api.example.com/users\nnuts call POST https://api.example.com/users \x27\x7b\"name\": \"John\"\x7d\x27\nnuts call -H \"Authorization: Bearer token\" GET https://api.example.com/users\n\n# Natural Language Interface\nnuts ask \"Create a user with realistic data\"\nnuts ask \"Get all products from the API\"\nnuts ask \"Delete user with ID 123\"\n\n# Performance Testing\nnuts perf GET https://api.example.com/users --users 100 --duration 30s\nnuts perf POST https://api.example.com/users --users 50 \x27\x7b\"name\": \"Test\"\x7d\x27\n\n# Security Scanning\nnuts security https://api.example.com --deep\nnuts security https://api.example.com --auth \"Bearer token\" --save report.json\n\n# Health Monitoring\nnuts monitor https://api.example.com              # Basic (30s intervals)\nnuts monitor https://api.example.com --smart      # AI analysis (every 3rd check)\n\n# API Discovery & Testing\nnuts discover https://api.example.com             # Auto-discover endpoints\nnuts test \"Check if user registration works\"      # AI test generation\nnuts generate users 10                            # Generate test data\nnuts predict https://api.example.com              # AI health prediction\nnuts explain                                      # Explain last response\nnuts fix https://api.example.com/broken           # Auto-fix issues"
          , referenceBlock "🔄 Flow Management" "OpenAPI Collections & Workflows"
              "# Create and manage API collections\nnuts flow new myapi                               # Create new flow\nnuts flow add myapi GET /users                    # Add endpoint\nnuts flow add myapi POST /users                   # Add another endpoint\nnuts flow run myapi /users                        # Execute endpoint\nnuts flow list                                    # List all flows\nnuts flow docs myapi                              # Generate documentation\n\n# Mock Server Generation\nnuts flow mock myapi                              # Start mock server\nnuts flow mock myapi 8080                         # Start on specific port\nnuts flow configure_mock_data myapi /users        # Configure mock data\n\n# AI-Guided Workflows\nnuts flow story myapi                             # Start AI-guided exploration\nnuts flow s myapi                                 # Shorthand for story mode"
          , referenceBlock "⚙️ Configuration & Shortcuts" "Setup & Aliases"
              "# Configuration\nnuts config api-key                               # Set Anthropic API key\nnuts config show                                  # Show current config\n\n# Command Aliases (shortcuts)\nnuts c GET https://api.example.com                # \x27c\x27 = call\nnuts p GET https://api.example.com --users 10     # \x27p\x27 = perf\nnuts s myapi                                      # \x27s\x27 = flow story\nnuts h                                            # \x27h\x27 = help\nnuts q                                            # \x27q\x27 = quit" ]
        , .el "section" [("className", "mb-12")]
          [ .el "h2" [("className", "section-title")] [.text "💖 Why Developers Love NUTS"]
          , .el "div" [("className", "love-grid")]
            [ loveItem "🚀" "Zero Learning Curve"
                "Just talk to NUTS like a human. No complex syntax to memorize."
            , loveItem "🤖" "AI-Powered Everything"
                "Every command is enhanced with AI to make you more productive."
            , loveItem "⚡" "Instant Productivity"
                "Stop writing boilerplate. Focus on testing, not tool configuration."
            , loveItem "🔮" "Predictive Intelligence"
                "Catch issues before they become problems. Monitor smartly."
            , loveItem "🎯" "Perfect Simplicity"
                "Clean, focused interface. No overwhelming features or complexity."
            , loveItem "🌟" "Future-Proof"
                "NUTS learns and improves. The more you use it, the smarter it gets." ] ]
        , .el "section" [("className", "text-center")]
          [ .el "div" [("className", "cyberpunk-border p-8")]
            [ .el "h2" [("className", "section-title")] [.text "Ready to Revolutionize API Testing?"]
            , .el "p" [("className", "text-white text-lg mb-6")]
                [.text "Join the AI revolution. Make API testing effortless."]
            , .el "div" [("className", "flex justify-center gap-4")]
              [ .el "a" [("href", "https://github.com/wellcode-ai/nuts"), ("className", "cyberpunk-button")]
                  [.text "🚀 Get Started on GitHub"]
              , .el "Link" [("href", "/"), ("className", "cyberpunk-button")]
                  [.text "← Back to Home"] ] ] ] ] ] ]

/-- C1: describeMonitoring returns the fixed profiles — Basic is
30-second checks with no AI-analysis field, Smart is 30-second checks with
AI analysis every 3rd check, and the Smart profile's product of base
interval and AI-analysis cadence is 90 seconds. -/
theorem describeMonitoring_profiles :
    describeMonitoring "Basic" = some ⟨30, none⟩ ∧
    describeMonitoring "Smart" = some ⟨30, some 3⟩ ∧
    (describeMonitoring "Smart").map
      (fun p => p.baseIntervalSeconds * p.aiAnalysisEveryNChecks.getD 0) = some 90 := by
  decide

/-- C2 counterexample: the catalog entry for the alias h has its aliasOf
field set, yet resolveAlias on "h" yields no entry at all — its target
"help" has no row in any command table, so not every alias entry resolves
to a non-alias entry. -/
theorem resolveAlias_h_dangling :
    (aliasRow "h" "help") ∈ catalog ∧
    ((aliasRow "h" "help").aliasOf).isSome = true ∧
    resolveAlias catalog "h" = none := by
  decide

/-- C2 (amended): every catalog entry whose aliasOf target is present in the
catalog resolves in one hop to a non-alias entry, and resolveAlias on "c"
returns the existing "call" entry; the aliases h and q, whose targets help
and quit are absent from the tables, are excluded by the target-present
hypothesis. -/
theorem resolveAlias_one_hop :
    (∀ e ∈ catalog, e.aliasOf.isSome = true → aliasTargetPresent catalog e = true →
      resolvesToNonAlias catalog e.name = true) ∧
    resolveAlias catalog "c" = findEntry catalog "call" ∧
    (findEntry catalog "call").isSome = true := by
  decide

/-- Witness for C2: the amended theorem applied to the alias entry c. -/
theorem resolveAlias_one_hop_check : resolvesToNonAlias catalog "c" = true :=
  resolveAlias_one_hop.1 (aliasRow "c" "call") (by decide) (by decide) (by decide)

/-- C3 counterexample: the README page's flow-management block demonstrates
the command flow configure_mock_data, which has no row in the website
README's Flow Management table, so the command content rendered across
pages is not identical and is not drawn from a single definition. -/
theorem readmePage_extra_flow_command :
    "flow configure_mock_data" ∈ readmePageFlowCommandNames ∧
    "flow configure_mock_data" ∉ websiteFlowCommands.map CommandEntry.name := by
  decide

/-- C3 (amended): the catalog is authored separately in each location rather
than defined once — the website README's tables and the project README's
tables happen to agree row for row, but the README page's command content
diverges from both (it demonstrates flow configure_mock_data, absent from
the tables), so an edit to one command can require edits in several
places. -/
theorem catalog_copies_divergent :
    websiteCoreCommands = projectCoreCommands ∧
    websiteFlowCommands = projectFlowCommands ∧
    "flow configure_mock_data" ∈ readmePageFlowCommandNames ∧
    "flow configure_mock_data" ∉ projectFlowCommands.map CommandEntry.name := by
  decide

/-- C4 counterexample: the authored alias q references the name "quit", and
no entry of the catalog carries that name, so not every aliasOf reference
resolves to an existing CommandEntry name. -/
theorem alias_q_dangling :
    (aliasRow "q" "quit") ∈ catalog ∧
    (aliasRow "q" "quit").aliasOf = some "quit" ∧
    findEntry catalog "quit" = none := by
  decide

/-- C4 (amended): no two catalog entries share a name within a category, and
the aliases c, p, s reference existing entry names (call, perf, flow
story), but the aliases h and q reference help and quit, which have no
entry in any command table. -/
theorem catalog_consistency :
    noDupNamesWithinCategory catalog = true ∧
    aliasTargetPresent catalog (aliasRow "c" "call") = true ∧
    aliasTargetPresent catalog (aliasRow "p" "perf") = true ∧
    aliasTargetPresent catalog (aliasRow "s" "flow story") = true ∧
    aliasTargetPresent catalog (aliasRow "h" "help") = false ∧
    aliasTargetPresent catalog (aliasRow "q" "quit") = false := by
  decide

/-- C5 counterexample: the name "q" is present in the catalog (as an alias
entry), yet resolveAlias on it fails, so failure is not equivalent to the
name being absent from the catalog. -/
theorem resolveAlias_fails_on_present_name :
    (findEntry catalog "q").isSome = true ∧
    resolveAlias catalog "q" = none := by
  decide

/-- C5 (amended): resolveAlias fails on every name absent from the catalog,
and returns an entry for every present name that is either a non-alias or
an alias whose target is present; the dangling aliases h and q are the only
present names on which it fails. -/
theorem resolveAlias_notFound :
    (∀ n, findEntry catalog n = none → resolveAlias catalog n = none) ∧
    (∀ e ∈ catalog, (e.aliasOf.isNone || aliasTargetPresent catalog e) = true →
      (resolveAlias catalog e.name).isSome = true) := by
  constructor
  · intro n h
    simp [resolveAlias, h]
  · decide

/-- Witness for C5: the amended theorem applied to the absent name
"frobnicate" and to the present call entry. -/
theorem resolveAlias_notFound_check :
    resolveAlias catalog "frobnicate" = none ∧
    (resolveAlias catalog "call").isSome = true :=
  ⟨resolveAlias_notFound.1 "frobnicate" (by decide),
   resolveAlias_notFound.2 callRow (by decide) (by decide)⟩

/-- C6: describeMonitoring fails for every mode other than Basic and Smart,
and succeeds on both Basic and Smart. -/
theorem describeMonitoring_invalidMode :
    (∀ mode, mode ≠ "Basic" → mode ≠ "Smart" → describeMonitoring mode = none) ∧
    (describeMonitoring "Basic").isSome = true ∧
    (describeMonitoring "Smart").isSome = true := by
  refine ⟨?_, by decide, by decide⟩
  intro mode h1 h2
  simp [describeMonitoring, h1, h2]

/-- Witness for C6: the theorem applied to the invalid mode "Turbo". -/
theorem describeMonitoring_invalidMode_check : describeMonitoring "Turbo" = none :=
  describeMonitoring_invalidMode.1 "Turbo" (by decide) (by decide)

/-- C7: listCommands with no filter returns the whole catalog in authored
order, that order is sorted by authored priority (every Core entry before
every Flow entry before every Config entry, aliases last), and filtering by
Flow returns exactly the Flow-tagged entries in authored order: flow new,
flow add, flow run, flow list, flow docs, flow mock, flow story. -/
theorem listCommands_order :
    listCommands catalog none = catalog ∧
    rankSorted (listCommands catalog none) = true ∧
    (listCommands catalog (some Category.Flow)).all
      (fun e => decide (e.category = some Category.Flow)) = true ∧
    (listCommands catalog (some Category.Flow)).map CommandEntry.name =
      ["flow new", "flow add", "flow run", "flow list", "flow docs",
       "flow mock", "flow story"] := by
  refine ⟨rfl, by decide, by decide, by decide⟩

/-- C8: listCommands is idempotent over the immutable authored catalog — a
call leaves the catalog unchanged, and a second call on the catalog left by
the first returns the same ordered sequence as the first. -/
theorem listCommands_idempotent :
    (listCommandsSt catalog none).2 = catalog ∧
    (listCommandsSt ((listCommandsSt catalog none).2) none).1 =
      (listCommandsSt catalog none).1 :=
  ⟨rfl, rfl⟩

/-- C9: ReadmePage is a deterministic pure function — it takes no inputs and
reads no mutable state, so any two invocations produce identical markup,
including the rendered command reference, monitoring intervals and alias
list. -/
theorem readmePage_deterministic : ∀ u v : Unit, ReadmePage u = ReadmePage v :=
  fun _ _ => rfl

/-- C10: in every row of the core-command and flow-command tables of both
READMEs, the example string begins with the row's own command name; in
particular the row named flow mock has example flow mock myapi 8080. -/
theorem samples_match_names :
    ((projectCoreCommands ++ projectFlowCommands) ++
      (websiteCoreCommands ++ websiteFlowCommands)).all sampleMatchesName = true ∧
    sampleMatchesName (row "flow mock" "flow mock NAME [PORT]" "Start mock server"
      "flow mock myapi 8080" Category.Flow) = true := by
  decide

end Nuts
